import Mathlib

set_option maxRecDepth 4000

/- Shallow embedding of the token authorization layer of the coffee-shop
   backend (backend/src/auth/auth.py).  The Python functions
   get_token_auth_header, check_permissions, verify_decode_jwt and the
   requires_auth wrapper are translated statement by statement.  External
   effects (the JWKS network fetch, the jose library's header parsing and
   signature checking) are modelled as explicit oracle inputs, and strings
   that the source compares with the identity operator carry an explicit
   object id alongside their value. -/

/-- A Python string object: its character content together with an object
identity.  Two distinct objects (different `id`) may carry the same value,
as two strings produced by separate JSON parses do. -/
structure PyStr where
  val : String
  id : Nat
deriving DecidableEq

/-- Python's identity operator `is` on string objects: compares object ids,
not character content. -/
def pyIs (a b : PyStr) : Bool := a.id == b.id

/-- The AuthError exception of auth.py: a payload dict (here its two string
fields) and an HTTP status code. -/
structure AuthError where
  error : String
  description : String
  status_code : Nat
deriving DecidableEq

/- Module-level configuration constants of auth.py (lines 8-10). -/

def AUTH0_DOMAIN : String := "ask-auth.us.auth0.com"

def ALGORITHMS : List String := ["RS256"]

def API_AUDIENCE : String := "coffee_shop"

/- The errors raised by get_token_auth_header (lines 40-53).  The first one
   stores its text under the key named message in the source; the field name
   here is uniform. -/

def missingHeaderError : AuthError :=
  ⟨"Authorization header is missing.", "Expected authorization header.", 401⟩

def malformedHeaderError : AuthError :=
  ⟨"Invalid authorization header.", "Expected header must has two parts.", 401⟩

def noBearerError : AuthError :=
  ⟨"Invalid authorization header.", "Authorization header must has a bearer.", 401⟩

/-- Python's str.split with an explicit one-character separator, on a list
of characters: splits at every occurrence, keeping empty pieces. -/
def splitCh (c : Char) : List Char → List (List Char)
  | [] => [[]]
  | a :: as =>
    if a = c then [] :: splitCh c as
    else
      match splitCh c as with
      | [] => [[a]]
      | g :: gs => (a :: g) :: gs

/-- The source's auth.split with a one-space separator (line 44): Python
split on the single space character, empty pieces kept. -/
def pySplitSpace (s : String) : List String :=
  (splitCh ' ' s.data).map String.mk

/-- Python's str.lower on the scheme part (line 50), character by
character. -/
def pyLower (s : String) : String := String.mk (s.data.map Char.toLower)

/-- get_token_auth_header (auth.py lines 37-55).  Its input is the value of
the request's Authorization header, or none when the header is absent. -/
def get_token_auth_header (auth : Option String) : Except AuthError String :=
  match auth with
  | none => .error missingHeaderError
  | some a =>
    let head_parts := pySplitSpace a
    if head_parts.length ≠ 2 then .error malformedHeaderError
    else if pyLower (head_parts.headD ("")) ≠ "bearer" then .error noBearerError
    else .ok (head_parts.getD 1 (""))

/- check_permissions (auth.py lines 71-82). -/

def permissionsAbsentError : AuthError :=
  ⟨"Invalid permission", "Permissions is not included in the payload", 400⟩

def permissionDeniedError : AuthError :=
  ⟨"Invalid permission", "Permission is not found in the payload", 403⟩

/-- The decoded claims dict as check_permissions sees it: only the presence
and content of its permissions key matter. -/
structure ClaimsPayload where
  permissions : Option (List String)
deriving DecidableEq

/-- Result of a call that may return normally, raise an AuthError, or let a
plain Python exception escape. -/
inductive CheckResult where
  | ok : CheckResult
  | raiseAuth : AuthError → CheckResult
  | raisePy : String → CheckResult
deriving DecidableEq

/-- check_permissions (auth.py lines 71-82).  The payload argument is
whatever verify_decode_jwt returned, which may be Python None; the
membership test on None raises a TypeError. -/
def check_permissions (permission : String) (payload : Option ClaimsPayload) :
    CheckResult :=
  match payload with
  | none => .raisePy ("TypeError: argument of type NoneType is not iterable")
  | some p =>
    match p.permissions with
    | none => .raiseAuth permissionsAbsentError
    | some perms =>
      if permission ∈ perms then .ok else .raiseAuth permissionDeniedError

/- verify_decode_jwt (auth.py lines 99-151). -/

/-- One entry of the fetched JWK set, with the five fields the source
copies (lines 114-120); the kid is a string object with identity. -/
structure JWK where
  kid : PyStr
  kty : String
  use : String
  n : String
  e : String
deriving DecidableEq

/-- The URL the source fetches (line 108): plain http scheme. -/
def jwks_url : String := "http://" ++ AUTH0_DOMAIN ++ "/.well-known/jwks.json"

def noKidError : AuthError :=
  ⟨"Token key is not exist", "Token lacks valid authentication key", 401⟩

def expiredError : AuthError :=
  ⟨"Expiered token", "Token is expiered", 401⟩

def invalidClaimsError : AuthError :=
  ⟨"Invalid claims", "Please check the claims of the decode function", 401⟩

def invalidHeaderError : AuthError :=
  ⟨"Invalid header", "Unable to parse authentication token", 401⟩

def tokenDecodeError : AuthError :=
  ⟨"Token error during decoding", "Token is not decoded", 401⟩

/-- Outcome of jwt.get_unverified_header on the token (line 101): either a
parsed header carrying its kid entry when one is present, or a raised
exception for an unparseable token. -/
inductive HeaderParseOutcome where
  | ok : Option PyStr → HeaderParseOutcome
  | exc : String → HeaderParseOutcome

/-- Outcome of urlopen plus json.loads (lines 108-109): the parsed list of
keys, or a raised exception (network error, non-200, malformed body). -/
inductive FetchOutcome where
  | ok : List JWK → FetchOutcome
  | exc : String → FetchOutcome

/-- Outcome of jwt.decode (lines 124-130): success, the two specifically
caught exceptions, any other Exception, or a BaseException that no except
clause catches. -/
inductive DecodeOutcome where
  | ok : ClaimsPayload → DecodeOutcome
  | expiredSignature : DecodeOutcome
  | jwtClaimsError : DecodeOutcome
  | otherException : String → DecodeOutcome
  | baseException : String → DecodeOutcome

/-- Control state after executing a Python statement block: returned a
value, raised an AuthError, let a plain exception propagate, or fell
through to the next statement. -/
inductive Control where
  | ret : ClaimsPayload → Control
  | raiseAuth : AuthError → Control
  | raisePy : String → Control
  | next : Control
deriving DecidableEq

/-- The try/except statement of verify_decode_jwt (lines 123-147): return
on success, map the two named jose exceptions and the catch-all Exception
clause to AuthErrors, and let BaseExceptions propagate. -/
def decode_try_except (o : DecodeOutcome) : Control :=
  match o with
  | .ok p => .ret p
  | .expiredSignature => .raiseAuth expiredError
  | .jwtClaimsError => .raiseAuth invalidClaimsError
  | .otherException _ => .raiseAuth invalidHeaderError
  | .baseException e => .raisePy e

/-- The key-selection loop (lines 111-120): starts from an empty dict,
overwrites it with a copy of every entry whose kid passes the identity
test, so the last identity match wins and a value-equal but distinct kid
object never matches. -/
def select_jwks_key (hkid : PyStr) (keys : List JWK) : Option JWK :=
  keys.foldl
    (fun acc k =>
      if pyIs hkid k.kid then some ⟨k.kid, k.kty, k.use, k.n, k.e⟩ else acc)
    none

/-- What verify_decode_jwt hands back to its caller: a Python return value
(possibly None, when the function falls off the end), a raised AuthError,
or a plain exception that escaped it. -/
inductive VerifyResult where
  | ret : Option ClaimsPayload → VerifyResult
  | raiseAuth : AuthError → VerifyResult
  | raisePy : String → VerifyResult
deriving DecidableEq

/-- The external world of one verification: what jose's header parse does
on each token, what the single JWKS fetch yields, and what jwt.decode does
on each token and selected key. -/
structure JwtEnv where
  headerParse : String → HeaderParseOutcome
  fetch : FetchOutcome
  decode : String → JWK → DecodeOutcome

/-- verify_decode_jwt (auth.py lines 99-151).  Returns the call's result,
the list of URLs requested over the network during the call, and whether
the final raise statement at lines 149-151 was executed.  That raise sits
inside the block guarded by the key check, after a try/except whose every
branch returns or raises, so it runs only when the try/except falls
through to the next statement. -/
def verify_decode_jwt (token : String) (env : JwtEnv) :
    VerifyResult × List String × Bool :=
  match env.headerParse token with
  | .exc e => (.raisePy e, [], false)
  | .ok none => (.raiseAuth noKidError, [], false)
  | .ok (some hkid) =>
    match env.fetch with
    | .exc e => (.raisePy e, [jwks_url], false)
    | .ok keys =>
      match select_jwks_key hkid keys with
      | some k =>
        match decode_try_except (env.decode token k) with
        | .ret p => (.ret (some p), [jwks_url], false)
        | .raiseAuth e => (.raiseAuth e, [jwks_url], false)
        | .raisePy e => (.raisePy e, [jwks_url], false)
        | .next => (.raiseAuth tokenDecodeError, [jwks_url], true)
      | none => (.ret none, [jwks_url], false)

/-- Terminal outcome of one request through the requires_auth wrapper: the
wrapped handler was invoked with the payload verify_decode_jwt produced,
or an AuthError was raised, or a plain exception escaped. -/
inductive PipelineResult where
  | handler : Option ClaimsPayload → PipelineResult
  | raiseAuth : AuthError → PipelineResult
  | raisePy : String → PipelineResult
deriving DecidableEq

/-- The wrapper built by requires_auth (auth.py lines 168-178): extract the
token from the Authorization header, verify and decode it, check the
required permission, then call the handler on the payload.  Alongside the
outcome it reports the network requests made and whether the dead raise of
verify_decode_jwt executed. -/
def requires_auth_wrapper (permission : String) (auth : Option String)
    (env : JwtEnv) : PipelineResult × List String × Bool :=
  match get_token_auth_header auth with
  | .error e => (.raiseAuth e, [], false)
  | .ok token =>
    match verify_decode_jwt token env with
    | (.raisePy e, tr, b) => (.raisePy e, tr, b)
    | (.raiseAuth e, tr, b) => (.raiseAuth e, tr, b)
    | (.ret payload, tr, b) =>
      match check_permissions permission payload with
      | .ok => (.handler payload, tr, b)
      | .raiseAuth e => (.raiseAuth e, tr, b)
      | .raisePy e => (.raisePy e, tr, b)

/- Concrete fixtures: a token header kid and a JWKS entry whose kid has the
   same character content but is a distinct string object, as two separate
   JSON parses produce. -/

def tokenKid : PyStr := ⟨"abc123", 0⟩

def jwksKid : PyStr := ⟨"abc123", 1⟩

def sampleJWK : JWK := ⟨jwksKid, "RSA", "sig", "someModulus", "AQAB"⟩

def envExpired : JwtEnv :=
  ⟨fun _ => .ok (some tokenKid), .ok [sampleJWK], fun _ _ => .expiredSignature⟩

def envNoMatch : JwtEnv :=
  ⟨fun _ => .ok (some ⟨"zzz", 9⟩), .ok [sampleJWK],
    fun _ _ => .ok ⟨some ["get:drinks-detail"]⟩⟩

def envFetchFail : JwtEnv :=
  ⟨fun _ => .ok (some tokenKid), .exc ("URLError: connection refused"),
    fun _ _ => .ok ⟨none⟩⟩

/-- True exactly when a verification result is a raised structured
AuthError (as opposed to a return or an escaping plain exception). -/
def raisesStructuredAuthError : VerifyResult → Bool
  | .raiseAuth _ => true
  | _ => false

/-- True exactly when a URL begins with the https scheme. -/
def usesHttpsScheme (url : String) : Bool :=
  url.data.take 8 == ("https://").data

/-- C1: the claim says key selection matches the JWKS entry whose kid is
exactly equal as a string value to the token's kid, object identity aside.
The source compares with the identity operator: an entry whose kid has the
same string value but is a different object is not selected (selection
yields the empty dict), while an identity match is selected. -/
theorem select_jwks_key_uses_identity_not_value :
    tokenKid.val = jwksKid.val ∧
    select_jwks_key tokenKid [sampleJWK] = none ∧
    select_jwks_key jwksKid [sampleJWK] = some sampleJWK :=
  ⟨rfl, rfl, rfl⟩

/-- C2: the claim says a token whose kid matches no fetched entry makes
verify_decode_jwt fail with a 401 unknown-signing-key error.  The source
instead skips the guarded block and falls off the end of the function,
returning Python None — a non-error value — to the caller. -/
theorem verify_decode_jwt_no_match_returns_none :
    verify_decode_jwt ("h.p.s") envNoMatch = (.ret none, [jwks_url], false) :=
  rfl

/-- C3 counterexample: on a key-set fetch failure the result is the
escaping underlying exception, not a raised structured AuthError. -/
theorem verify_decode_jwt_fetch_failure_escapes :
    verify_decode_jwt ("h.p.s") envFetchFail =
      (.raisePy ("URLError: connection refused"), [jwks_url], false) ∧
    raisesStructuredAuthError (verify_decode_jwt ("h.p.s") envFetchFail).1 =
      false :=
  ⟨rfl, rfl⟩

/-- C3 amended: whenever the token's header parses with a kid present and
the key-set fetch fails, the underlying exception propagates uncaught out
of verify_decode_jwt; no structured Unauthorized error is produced. -/
theorem verify_decode_jwt_fetch_failure_uncaught (tok e : String) (kid : PyStr)
    (dec : String → JWK → DecodeOutcome) :
    verify_decode_jwt tok ⟨fun _ => .ok (some kid), .exc e, dec⟩ =
      (.raisePy e, [jwks_url], false) :=
  rfl

/-- C4 counterexample: a run that performs the key-set retrieval requests
jwks_url, and jwks_url does not use the HTTPS scheme. -/
theorem jwks_fetch_not_https :
    (verify_decode_jwt ("h.p.s") envNoMatch).2.1 = [jwks_url] ∧
    jwks_url = "http://ask-auth.us.auth0.com/.well-known/jwks.json" ∧
    usesHttpsScheme jwks_url = false :=
  ⟨rfl, rfl, by decide⟩

/-- C4 amended: every key-set retrieval performed by the verifier requests
the well-known JWKS path under the configured authority domain over plain
HTTP — each run requests either nothing or exactly jwks_url, whose scheme
is http. -/
theorem verify_decode_jwt_fetches_only_http_url (tok : String) (env : JwtEnv) :
    ((verify_decode_jwt tok env).2.1 = [] ∨
     (verify_decode_jwt tok env).2.1 = [jwks_url]) ∧
    jwks_url = "http://ask-auth.us.auth0.com/.well-known/jwks.json" := by
  refine ⟨?_, rfl⟩
  unfold verify_decode_jwt
  cases h1 : env.headerParse tok with
  | exc e => simp
  | ok o =>
    cases o with
    | none => simp
    | some hkid =>
      cases h2 : env.fetch with
      | exc e => simp
      | ok keys =>
        cases h3 : select_jwks_key hkid keys with
        | none => simp [h3]
        | some k =>
          cases h4 : decode_try_except (env.decode tok k) <;> simp [h3, h4]

/-- C5: a request with no Authorization header fails with the 401
missing-header error raised by extraction, and no network request is made:
key resolution is never reached. -/
theorem requires_auth_missing_header (permission : String) (env : JwtEnv) :
    requires_auth_wrapper permission none env =
      (.raiseAuth missingHeaderError, [], false) ∧
    missingHeaderError.status_code = 401 :=
  ⟨rfl, rfl⟩

/-- C6: a payload with no permissions key fails with the 400 error, a
payload whose permissions lack the required string fails with the distinct
403 error, and otherwise check_permissions succeeds. -/
theorem check_permissions_error_taxonomy (permission : String)
    (p : ClaimsPayload) :
    (p.permissions = none →
      check_permissions permission (some p) = .raiseAuth permissionsAbsentError) ∧
    (∀ perms, p.permissions = some perms → permission ∉ perms →
      check_permissions permission (some p) = .raiseAuth permissionDeniedError) ∧
    (∀ perms, p.permissions = some perms → permission ∈ perms →
      check_permissions permission (some p) = .ok) ∧
    permissionsAbsentError.status_code = 400 ∧
    permissionDeniedError.status_code = 403 := by
  refine ⟨?_, ?_, ?_, rfl, rfl⟩
  · intro h
    simp [check_permissions, h]
  · intro perms h hnot
    simp [check_permissions, h, hnot]
  · intro perms h hmem
    simp [check_permissions, h, hmem]

theorem check_permissions_error_taxonomy_witness :
    check_permissions ("post:drinks") (some ⟨none⟩) =
      .raiseAuth permissionsAbsentError ∧
    check_permissions ("post:drinks") (some ⟨some ["get:drinks"]⟩) =
      .raiseAuth permissionDeniedError ∧
    check_permissions ("post:drinks") (some ⟨some ["post:drinks"]⟩) = .ok :=
  ⟨(check_permissions_error_taxonomy ("post:drinks") ⟨none⟩).1 rfl,
   (check_permissions_error_taxonomy ("post:drinks") ⟨some ["get:drinks"]⟩).2.1
     ["get:drinks"] rfl (by decide),
   (check_permissions_error_taxonomy ("post:drinks") ⟨some ["post:drinks"]⟩).2.2.1
     ["post:drinks"] rfl (by decide)⟩

/-- C7: the claim says an otherwise valid, correctly signed but expired
token yields the specific 401 expired-token error.  With a key set whose
matching entry is value-equal but not identical, the source selects no
key, verify_decode_jwt returns None, and check_permissions then raises a
TypeError that escapes the pipeline — the expired-token mapping in the
except clause exists but is never reached. -/
theorem expired_token_pipeline_type_error :
    requires_auth_wrapper ("get:drinks-detail") (some ("Bearer h.p.s"))
        envExpired =
      (.raisePy ("TypeError: argument of type NoneType is not iterable"),
        [jwks_url], false) ∧
    decode_try_except DecodeOutcome.expiredSignature = .raiseAuth expiredError ∧
    expiredError.status_code = 401 :=
  ⟨rfl, rfl, rfl⟩

/-- C8: the bearer-scheme comparison is case-insensitive, so the header
value BEARER abc.def.ghi yields the token, while the permission membership
test is case-sensitive and exact, so Post:Drinks does not satisfy
post:drinks. -/
theorem bearer_case_insensitive_permission_case_sensitive :
    get_token_auth_header (some ("BEARER abc.def.ghi")) = .ok ("abc.def.ghi") ∧
    check_permissions ("post:drinks") (some ⟨some ["Post:Drinks"]⟩) =
      .raiseAuth permissionDeniedError :=
  ⟨rfl, rfl⟩

/-- The number of pieces Python's single-character split produces is one
more than the number of separator occurrences. -/
theorem splitCh_length (c : Char) (l : List Char) :
    (splitCh c l).length = l.count c + 1 := by
  induction l with
  | nil => simp [splitCh]
  | cons a as ih =>
    by_cases h : a = c
    · subst h
      simp [splitCh, List.count_cons, ih]
    · have hne : ¬ (c = a) := fun hc => h hc.symm
      cases he : splitCh c as with
      | nil =>
        rw [he] at ih
        simp at ih
      | cons g gs =>
        rw [he] at ih
        simp only [List.length_cons] at ih
        simp [splitCh, h, he, List.count_cons, hne, ← ih]

theorem pySplitSpace_mk_length (l : List Char) :
    (pySplitSpace (String.mk l)).length = l.count ' ' + 1 := by
  simp [pySplitSpace, splitCh_length]

theorem get_token_auth_header_parts_ne_two (a : String)
    (h : (pySplitSpace a).length ≠ 2) :
    get_token_auth_header (some a) = .error malformedHeaderError := by
  simp [get_token_auth_header, h]

/-- C9: header extraction splits on the single space character only.  When
the scheme and token contain no space and are separated by a tab, or by
two or more consecutive spaces, the parts count is not two and extraction
fails with the malformed-header 401 error instead of returning the
token. -/
theorem split_single_space_only (s t : List Char)
    (hs : ' ' ∉ s) (ht : ' ' ∉ t) :
    get_token_auth_header (some (String.mk (s ++ '\t' :: t))) =
      .error malformedHeaderError ∧
    (∀ k, 2 ≤ k →
      get_token_auth_header (some (String.mk (s ++ List.replicate k ' ' ++ t))) =
        .error malformedHeaderError) ∧
    malformedHeaderError.status_code = 401 := by
  have hcs : s.count ' ' = 0 := List.count_eq_zero.mpr hs
  have hct : t.count ' ' = 0 := List.count_eq_zero.mpr ht
  refine ⟨?_, ?_, rfl⟩
  · apply get_token_auth_header_parts_ne_two
    rw [pySplitSpace_mk_length]
    simp [List.count_append, List.count_cons, hcs, hct]
  · intro k hk
    apply get_token_auth_header_parts_ne_two
    rw [pySplitSpace_mk_length]
    simp only [List.count_append, List.count_replicate, hcs, hct]
    simp only [beq_self_eq_true, if_pos]
    omega

theorem split_single_space_only_witness :
    get_token_auth_header
        (some (String.mk (("Bearer").data ++ '\t' :: ("abc.def.ghi").data))) =
      .error malformedHeaderError ∧
    get_token_auth_header
        (some (String.mk
          (("Bearer").data ++ List.replicate 2 ' ' ++ ("abc.def.ghi").data))) =
      .error malformedHeaderError :=
  ⟨(split_single_space_only ("Bearer").data ("abc.def.ghi").data
      (by decide) (by decide)).1,
   (split_single_space_only ("Bearer").data ("abc.def.ghi").data
      (by decide) (by decide)).2.1 2 (by decide)⟩

/-- C10: the raise statement at lines 149-151 of verify_decode_jwt is dead
code: on every input the function returns from the try block, raises from
one of its except clauses, lets a BaseException propagate, or skips the
guarded block entirely, so the instrumentation flag marking that raise is
false on every run. -/
theorem verify_decode_jwt_final_raise_dead (tok : String) (env : JwtEnv) :
    (verify_decode_jwt tok env).2.2 = false := by
  unfold verify_decode_jwt
  cases h1 : env.headerParse tok with
  | exc e => rfl
  | ok o =>
    cases o with
    | none => rfl
    | some hkid =>
      cases h2 : env.fetch with
      | exc e => rfl
      | ok keys =>
        cases h3 : select_jwks_key hkid keys with
        | none => simp [h3]
        | some k =>
          cases h4 : env.decode tok k <;> simp [h3, h4, decode_try_except]
